import Mathlib

/-!
Shallow embedding of the `dbcreds` credential-storage engine.

Sources embedded here:
- `src/backup_20250531_140359/dbcreds/core/models.py` (`DatabaseCredentials`,
  `is_password_expired`, `days_until_expiry`, `Environment`, `DatabaseType`);
  the current tree's `dbcreds/core/models.py` is absent from `src/`, and the
  backup copy is the one the claims cite.
- `src/dbcreds/core/manager.py` (`CredentialManager`: `add_environment`,
  `set_credentials`, `get_credentials`, `_initialize_backends`).
- `src/dbcreds/core/exceptions.py` (error taxonomy).
- `src/dbcreds/backends/gpg.py` (`GPGBackend`).
- `src/backup_20250531_140359/dbcreds/backends/config.py` (`ConfigFileBackend`).

Modelling conventions:
- `datetime` values are integers counting microseconds on a single UTC
  timeline; `timedelta(days = d)` is `d * usPerDay`; Python's
  `timedelta.days` is floor division by `usPerDay` (`Int.fdiv`).
- Python dicts are association lists (`List (String × α)`) with insertion
  order preserved; `d[k] = v` updates in place or appends, `d.pop(k)`
  removes every binding of `k` and yields the first.
- JSON serialization (`json.dumps` / `json.loads`) is injective on the dicts
  the code serializes, so plaintext payloads carry the dict itself.
- File-system writes that the source only fails on I/O errors (the config
  backend's `_save_metadata`, the GPG backend's `write_bytes`) are modelled
  as succeeding; the claims under study do not concern I/O faults.
- Exceptions are explicit: functions return `Except DbError _` or, where the
  source swallows its own exceptions, the pre-catch outcome is a separate
  definition so the raise-then-swallow behaviour is visible.
-/

/-- Python `str.lower()` on the ASCII names the manager handles, written
per-character so it reduces in the kernel. -/
def String.pyLower (s : String) : String := String.mk (s.data.map Char.toLower)

/-- Microseconds per day: Python `timedelta(days=1)` in the integer timeline. -/
def usPerDay : Int := 86400000000

/-- `dbcreds/core/models.py` — the `DatabaseType` enum. -/
inductive DatabaseType
  | postgresql
  | mysql
  | oracle
  | mssql
  | sqlite
deriving DecidableEq, Repr

/-- A Python dict with string keys, in insertion order. -/
abbrev Dict := List (String × String)

/-- First value bound to `k`, like `d.get(k)`. -/
def dictGet (d : Dict) (k : String) : Option String :=
  (d.find? (fun p => p.1 = k)).map (fun p => p.2)

/-- `d[k] = v`: update the existing binding in place, else append. -/
def dictSet (d : Dict) (k v : String) : Dict :=
  if d.any (fun p => p.1 = k) then
    d.map (fun p => if p.1 = k then (k, v) else p)
  else
    d ++ [(k, v)]

/-- `d.pop(k, default)` minus the default: drop every binding of `k`. -/
def dictDrop (d : Dict) (k : String) : Dict :=
  d.filter (fun p => p.1 ≠ k)

/-- `{**d, **kvs}`: fold the right dict's bindings into the left. -/
def dictUpdate (d : Dict) (kvs : Dict) : Dict :=
  kvs.foldl (fun acc kv => dictSet acc kv.1 kv.2) d

/-- `dbcreds/core/models.py` lines 56-84 — `DatabaseCredentials`.
`password` is the secret's value (`SecretStr` unwrapped); timestamps are
integers on the UTC timeline. -/
structure DatabaseCredentials where
  environment : String
  host : String
  port : Int
  database : String
  username : String
  password : String
  options : Dict
  ssl_mode : Option String
  password_updated_at : Int
  password_expires_at : Option Int
deriving DecidableEq, Repr

namespace DatabaseCredentials

/-- `models.py` lines 123-127 — `is_password_expired`:
`datetime.utcnow() > self.password_expires_at`, `False` when no expiry is
set. `now` is the value of `datetime.utcnow()` at the call. -/
def is_password_expired (c : DatabaseCredentials) (now : Int) : Bool :=
  match c.password_expires_at with
  | none => false
  | some e => now > e

/-- `models.py` lines 129-134 — `days_until_expiry`:
`delta = password_expires_at - utcnow(); max(0, delta.days)`, `None` when no
expiry is set. `timedelta.days` floors (Python `//`), hence `Int.fdiv`. -/
def days_until_expiry (c : DatabaseCredentials) (now : Int) : Option Int :=
  match c.password_expires_at with
  | none => none
  | some e => some (max 0 (Int.fdiv (e - now) usPerDay))

end DatabaseCredentials

/-- `dbcreds/core/models.py` lines 26-53 — `Environment` (timestamps on the
integer timeline; the `name` validator lowercases, modelled at the call
sites that construct environments). -/
structure Environment where
  name : String
  database_type : DatabaseType
  description : Option String
  is_production : Bool
  created_at : Int
  updated_at : Int
deriving DecidableEq, Repr

/-- `models.py` line 42 — the `name` field pattern `^[a-zA-Z0-9_-]+$` with
`min_length=1`, `max_length=50`. -/
def validEnvName (s : String) : Bool :=
  1 ≤ s.length && s.length ≤ 50 &&
    s.data.all (fun c => c.isAlphanum || c = '_' || c = '-')

/-- `dbcreds/core/exceptions.py` — the exception taxonomy. In Python these
are subclasses of `CredentialError ⊂ Exception`; here each kind is a
constructor, and `except Exception` branches in the source catch every
constructor. -/
inductive DbError
  | credentialError (msg : String)
  | credentialNotFoundError (msg : String)
  | passwordExpiredError (msg : String)
  | backendError (msg : String)
  | validationError (msg : String)
  | securityError (msg : String)
deriving DecidableEq, Repr

/-- Whether an outcome is a raised `BackendError`. -/
def raisedBackendError {α : Type} : Except DbError α → Bool
  | .error (.backendError _) => true
  | _ => false

/-- Whether an outcome is a raised `PasswordExpiredError`. -/
def raisedPasswordExpired {α : Type} : Except DbError α → Bool
  | .error (.passwordExpiredError _) => true
  | _ => false

/-- A concrete credential used by witnesses: expiry set at t = 5. -/
def sampleCredExp : DatabaseCredentials :=
  { environment := "dev", host := "localhost", port := 5432, database := "mydb"
    username := "u", password := "p", options := [], ssl_mode := none
    password_updated_at := 0, password_expires_at := some 5 }

/-- A concrete credential used by witnesses: no expiry. -/
def sampleCredNoExp : DatabaseCredentials :=
  { sampleCredExp with password_expires_at := none }


/-- The credential fields a chain backend hands back as `metadata` and that
`get_credentials` splices into `DatabaseCredentials` (manager.py lines
376-385). -/
structure CredMeta where
  host : String
  port : Int
  database : String
  options : Dict
  ssl_mode : Option String
  password_updated_at : Int
  password_expires_at : Option Int
deriving DecidableEq, Repr

/-- What one backend's `get_credential(key)` does, as the manager observes
it: a hit, a miss (`None`), or a raised exception (manager.py lines
373-397). -/
inductive GetOutcome
  | found (username password : String) (meta : CredMeta)
  | absent
  | raiseExc
deriving DecidableEq, Repr

/-- What one backend's `set_credential(...)` does, as the manager observes
it: `True`, `False`, or a raised exception (manager.py lines 320-334). -/
inductive SetOutcome
  | accept
  | reject
  | raiseExc
deriving DecidableEq, Repr

/-- One backend of the manager's chain, abstracted to its observable
behaviour per key. -/
structure ChainBackend where
  get : String → GetOutcome
  set : String → SetOutcome

/-- `True` iff the backend's `set_credential` returned `True` for `key`. -/
def setAccepted (b : ChainBackend) (key : String) : Bool :=
  match b.set key with
  | .accept => true
  | _ => false

/-- `self.environments` lookup: the registry dict keyed by (lowercased)
environment name. -/
def envLookup (envs : List Environment) (name : String) : Option Environment :=
  envs.find? (fun e => e.name = name)

/-- Pydantic construction of `DatabaseCredentials` (models.py lines 56-84):
`none` models a raised `ValidationError` (the `port` bounds `gt=0`,
`le=65535` are the constraint the manager can trip). -/
def mkCreds (env_name username password : String) (m : CredMeta) :
    Option DatabaseCredentials :=
  if 0 < m.port ∧ m.port ≤ 65535 then
    some { environment := env_name, host := m.host, port := m.port
           database := m.database, username := username, password := password
           options := m.options, ssl_mode := m.ssl_mode
           password_updated_at := m.password_updated_at
           password_expires_at := m.password_expires_at }
  else
    none

/-- manager.py lines 372-401 — the backend loop of `get_credentials`.
Everything inside the per-backend `try` — including the
`PasswordExpiredError` raised at line 388 and a pydantic failure while
rebuilding the credential — is caught by the `except Exception` at line
396, so those branches continue to the next backend. Exhausting the chain
raises `CredentialNotFoundError` (line 399). -/
def getFromChain (backends : List ChainBackend) (key env_name environment : String)
    (check_expiry : Bool) (now : Int) : Except DbError DatabaseCredentials :=
  match backends with
  | [] =>
    .error (.credentialNotFoundError
      ("No credentials found for environment " ++ environment))
  | b :: rest =>
    match b.get key with
    | .absent => getFromChain rest key env_name environment check_expiry now
    | .raiseExc => getFromChain rest key env_name environment check_expiry now
    | .found username password meta =>
      match mkCreds env_name username password meta with
      | none => getFromChain rest key env_name environment check_expiry now
      | some creds =>
        if check_expiry && creds.is_password_expired now then
          getFromChain rest key env_name environment check_expiry now
        else
          .ok creds

/-- manager.py lines 342-401 — `CredentialManager.get_credentials`. -/
def get_credentials (envs : List Environment) (backends : List ChainBackend)
    (environment : String) (check_expiry : Bool) (now : Int) :
    Except DbError DatabaseCredentials :=
  let env_name := environment.pyLower
  match envLookup envs env_name with
  | none =>
    .error (.credentialNotFoundError ("Environment " ++ environment ++ " not found"))
  | some _ =>
    getFromChain backends ("dbcreds:" ++ env_name) env_name environment
      check_expiry now

/-- manager.py lines 318-334 — the write fan-out loop of `set_credentials`:
every backend is attempted (no break), `stored` ORs the per-backend
results, and an exception from one backend is caught and counts as a
failure. Returns (number of backends attempted, `stored`). -/
def setToChain : List ChainBackend → String → Nat × Bool
  | [], _ => (0, false)
  | b :: rest, key =>
    let r := setToChain rest key
    (r.1 + 1, setAccepted b key || r.2)

/-- manager.py line 254 — the declared default of the
`password_expires_days` parameter of `set_credentials`. -/
def SET_CREDENTIALS_EXPIRES_DAYS_DEFAULT : Option Int := some 90

/-- manager.py lines 297-302 — `password_expires_at` from the update
timestamp: computed only when `password_expires_days` is truthy (`None`
and `0` are falsy), as `password_updated_at + timedelta(days=d)`. -/
def computeExpiry (updated : Int) (password_expires_days : Option Int) :
    Option Int :=
  match password_expires_days with
  | none => none
  | some d => if d = 0 then none else some (updated + d * usPerDay)

/-- manager.py lines 246-340 — `CredentialManager.set_credentials`.
`password_updated_at` defaults to the current clock (timezone
normalization is the identity on the integer timeline); a pydantic failure
building the credential propagates as `ValidationError`; the write fans
out to every backend and raises `CredentialError` when none accepted. -/
def set_credentials (envs : List Environment) (backends : List ChainBackend)
    (environment host : String) (port : Int)
    (database username password : String) (options : Dict)
    (password_expires_days : Option Int) (password_updated_at : Option Int)
    (now : Int) : Except DbError DatabaseCredentials :=
  let env_name := environment.pyLower
  match envLookup envs env_name with
  | none =>
    .error (.credentialNotFoundError ("Environment " ++ environment ++ " not found"))
  | some _ =>
    let updated := password_updated_at.getD now
    let expires := computeExpiry updated password_expires_days
    match mkCreds env_name username password
        { host := host, port := port, database := database, options := options
          ssl_mode := none, password_updated_at := updated
          password_expires_at := expires } with
    | none => .error (.validationError "invalid credential fields")
    | some creds =>
      if (setToChain backends ("dbcreds:" ++ env_name)).2 then
        .ok creds
      else
        .error (.credentialError "Failed to store credentials in any backend")

/-- manager.py lines 170-214 — `CredentialManager.add_environment`:
case-insensitive duplicate check first, then the pydantic-validated
`Environment` whose `name` validator lowercases; the new entry is appended
to the registry. Returns the updated registry and the created environment. -/
def add_environment (envs : List Environment) (name : String)
    (database_type : DatabaseType) (description : Option String)
    (is_production : Bool) (now : Int) :
    Except DbError (List Environment × Environment) :=
  if (envLookup envs name.pyLower).isSome then
    .error (.credentialError ("Environment " ++ name ++ " already exists"))
  else if validEnvName name.pyLower then
    let env : Environment :=
      { name := name.pyLower, database_type := database_type
        description := description, is_production := is_production
        created_at := now, updated_at := now }
    .ok (envs ++ [env], env)
  else
    .error (.validationError "invalid environment name")

/-- A registered `dev` environment for concrete scenarios. -/
def devEnv : Environment :=
  { name := "dev", database_type := .postgresql, description := none
    is_production := false, created_at := 0, updated_at := 0 }

/-- Backend metadata for a credential whose password expired at t = 5. -/
def expiredMeta : CredMeta :=
  { host := "localhost", port := 5432, database := "mydb", options := []
    ssl_mode := none, password_updated_at := 0, password_expires_at := some 5 }

/-- A chain backend holding the expired credential of `expiredMeta`. -/
def expiredBackend : ChainBackend :=
  { get := fun _ => .found "u" "p" expiredMeta, set := fun _ => .accept }

/-- A chain backend that rejects every write and holds no credential. -/
def rejectBackend : ChainBackend :=
  { get := fun _ => .absent, set := fun _ => .reject }

/-- A chain backend that accepts every write. -/
def acceptBackend : ChainBackend :=
  { get := fun _ => .absent, set := fun _ => .accept }

/-- The environment record `add_environment envs "DEV" ...` creates at
clock `now`. -/
def addedDevEnv (now : Int) : Environment :=
  { name := "dev", database_type := .postgresql, description := none
    is_production := false, created_at := now, updated_at := now }

/-- A chain backend holding one fixed credential for every key. -/
def foundBackend (u p : String) (meta : CredMeta) : ChainBackend :=
  { get := fun _ => .found u p meta, set := fun _ => .accept }

/-- Association-list lookup (first match), for the keyed file stores. -/
def alookup {α : Type} : List (String × α) → String → Option α
  | [], _ => none
  | p :: ps, k => if p.1 = k then some p.2 else alookup ps k

/-- Association-list write: overwrite in place or append, like writing the
file at a path. -/
def aset {α : Type} (l : List (String × α)) (k : String) (v : α) :
    List (String × α) :=
  if l.any (fun p => p.1 = k) then
    l.map (fun p => if p.1 = k then (k, v) else p)
  else
    l ++ [(k, v)]

/-- gpg.py lines 101-102 — the per-character sanitization of
`_get_credential_path`. -/
def safeKeyChar (c : Char) : Char :=
  if c.isAlphanum || c = '-' || c = '_' then c else '_'

/-- gpg.py lines 99-103 — `_get_credential_path` maps the logical key to the
filesystem stem `safe_key`; the `.gpg` / `.gpg.sig` suffixes are the two
stores of `GPGState`. -/
def safeKey (key : String) : String :=
  String.mk (key.data.map safeKeyChar)

/-- The byte strings the GPG backend moves around, kept structured so that
engine calls are exact: `plain d` is `json.dumps` of the dict `d` (dumps is
injective on these dicts), `enc r d` is a ciphertext of `plain d` for
recipients `r`, `sig k d` is a detached signature by key `k` over
`plain d`. -/
inductive GData
  | plain (d : Dict)
  | enc (recipients : List String) (d : Dict)
  | sig (keyid : String) (d : Dict)
deriving DecidableEq, Repr

/-- The GPG backend's state: the `.gpg` files, the `.gpg.sig` files, the
public keyring, the available secret keys, and the constructor-configured
`default_recipients` and `sign_key` (gpg.py lines 31-53). -/
structure GPGState where
  creds : List (String × GData)
  sigs : List (String × GData)
  keyring : List String
  secrets : List String
  default_recipients : List String
  sign_key : Option String
deriving Repr

/-- python-gnupg `gpg.encrypt(data, recipients)` succeeds iff every
recipient has a public key. -/
def gpgEncryptOk (st : GPGState) (recipients : List String) : Bool :=
  recipients.all (fun r => st.keyring.contains r)

/-- `gpg.decrypt(blob)` succeeds iff the blob is a ciphertext addressed to
some recipient whose secret key is present, yielding the plaintext dict. -/
def gpgDecrypt (st : GPGState) (b : GData) : Option Dict :=
  match b with
  | .enc recipients d =>
    if recipients.any (fun r => st.secrets.contains r) then some d else none
  | _ => none

/-- `gpg.sign(data, keyid, detach=True)`: a detached signature over the
plaintext, produced iff the secret key is present (a falsy result
otherwise). -/
def gpgSign (st : GPGState) (keyid : String) (d : Dict) : Option GData :=
  if st.secrets.contains keyid then some (.sig keyid d) else none

/-- `gpg.verify_data(sig_bytes, data_bytes).valid`: the first blob is a
signature by a known key over exactly the presented bytes. -/
def gpgVerify (st : GPGState) (signature message : GData) : Bool :=
  match signature with
  | .sig keyid d => st.keyring.contains keyid && decide (GData.plain d = message)
  | _ => false

namespace GPGBackend

/-- The outcome of the `try` body of `get_credential` (gpg.py lines
119-147), before the `except` clause at line 149: a hit, a `None` return,
or the `SecurityError` raised at line 134. -/
inductive GetTry
  | found (username password : String) (metadata : Dict)
  | absent
  | securityErr (msg : String)
deriving DecidableEq, Repr

/-- gpg.py lines 119-147 — the `try` body of `GPGBackend.get_credential`:
read the ciphertext; if a signature file exists and a signing key is
configured, verify the detached signature against the ciphertext bytes and
raise `SecurityError` on failure; then decrypt (failure returns `None`)
and pop `username` / `password` out of the JSON dict. -/
def get_credential_try (st : GPGState) (key : String) : GetTry :=
  match alookup st.creds (safeKey key) with
  | none => .absent
  | some encrypted_data =>
    let verifyFailed :=
      match alookup st.sigs (safeKey key), st.sign_key with
      | some signature, some _ => !(gpgVerify st signature encrypted_data)
      | _, _ => false
    if verifyFailed then
      .securityErr ("Signature verification failed for " ++ key)
    else
      match gpgDecrypt st encrypted_data with
      | none => .absent
      | some data =>
        let username := (dictGet data "username").getD ""
        let d1 := dictDrop data "username"
        let password := (dictGet d1 "password").getD ""
        let d2 := dictDrop d1 "password"
        .found username password d2

/-- gpg.py lines 109-151 — `GPGBackend.get_credential` as its callers see
it: the `except (json.JSONDecodeError, SecurityError)` clause at line 149
catches the `SecurityError` raised by the `try` body and returns `None`. -/
def get_credential (st : GPGState) (key : String) :
    Option (String × String × Dict) :=
  match get_credential_try st key with
  | .found u p m => some (u, p, m)
  | .absent => none
  | .securityErr _ => none

/-- gpg.py lines 153-204 — `GPGBackend.set_credential`: build
`{"username": ..., "password": ..., **metadata}`, pick the recipients
(call-supplied or defaults; none at all raises `ValidationError`, caught
by the function's own `except` and turned into `False`), encrypt and write
the ciphertext, then, if a signing key is configured, sign the JSON
plaintext and write the detached signature. -/
def set_credential (st : GPGState) (key username password : String)
    (metadata : Dict) (recipients : Option (List String)) : GPGState × Bool :=
  let data := dictUpdate [("username", username), ("password", password)] metadata
  let recips :=
    match recipients with
    | some r => if r.isEmpty then st.default_recipients else r
    | none => st.default_recipients
  if recips.isEmpty then (st, false)
  else if !(gpgEncryptOk st recips) then (st, false)
  else
    let st1 := { st with creds := aset st.creds (safeKey key) (.enc recips data) }
    match st1.sign_key with
    | none => (st1, true)
    | some k =>
      match gpgSign st1 k data with
      | none => (st1, true)
      | some sg => ({ st1 with sigs := aset st1.sigs (safeKey key) sg }, true)

/-- Lexicographic code-point comparison on char lists (how Python compares
strings). -/
def strLeChars : List Char → List Char → Bool
  | [], _ => true
  | _ :: _, [] => false
  | c :: cs, d :: ds =>
    if c.toNat < d.toNat then true
    else if d.toNat < c.toNat then false
    else strLeChars cs ds

/-- Lexicographic code-point comparison on strings. -/
def strLe (a b : String) : Bool := strLeChars a.data b.data

/-- Insertion step of Python `sorted` on strings. -/
def insortStr (x : String) : List String → List String
  | [] => [x]
  | y :: ys => if strLe x y then x :: y :: ys else y :: insortStr x ys

/-- Python `sorted` on strings, as insertion sort. -/
def sortStr (l : List String) : List String := l.foldr insortStr []

/-- gpg.py lines 234-251 — `list_credentials`: the sorted stems of the
`.gpg` files. -/
def list_credentials (st : GPGState) : List String :=
  sortStr (st.creds.map (fun p => p.1))

/-- gpg.py lines 270-284 — the body of the rotation loop, threading the
store and the `(success_count, fail_count)` pair: a credential that fails
to decrypt, or fails to re-encrypt, bumps `fail_count` and the loop
continues. -/
def rotate_fold (new_recipients : List String) :
    List String → GPGState → GPGState × Nat × Nat
  | [], st => (st, 0, 0)
  | k :: ks, st =>
    match get_credential st k with
    | none =>
      let r := rotate_fold new_recipients ks st
      (r.1, r.2.1, r.2.2 + 1)
    | some (username, password, metadata) =>
      let w := set_credential st k username password metadata (some new_recipients)
      let r := rotate_fold new_recipients ks w.1
      if w.2 then (r.1, r.2.1 + 1, r.2.2) else (r.1, r.2.1, r.2.2 + 1)

/-- gpg.py lines 253-291 — `rotate_keys`: iterate over every listed
credential, re-encrypting each for the new recipients; returns the mutated
store and the boolean `fail_count == 0`. `old_recipients` is accepted but
never used by the body (decryption uses whatever secret keys are present). -/
def rotate_keys (st : GPGState) (old_recipients new_recipients : List String) :
    GPGState × Bool :=
  let r := rotate_fold new_recipients (list_credentials st) st
  (r.1, r.2.2 == 0)

/-- The `success_count` / `fail_count` pair that `rotate_keys` accumulates
and logs at gpg.py:286. It is observable only through the log line — the
function's return value is the boolean above. -/
def rotate_keys_counts (st : GPGState)
    (old_recipients new_recipients : List String) : Nat × Nat :=
  let r := rotate_fold new_recipients (list_credentials st) st
  (r.2.1, r.2.2)

/-- gpg.py lines 302-326 — the per-key body of `verify_all_signatures`:
no signature file is `False`; otherwise decrypt the ciphertext (failure is
`False`) and verify the signature against the DECRYPTED plaintext bytes. -/
def verifyOne (st : GPGState) (key : String) : Bool :=
  match alookup st.sigs (safeKey key) with
  | none => false
  | some signature =>
    match alookup st.creds (safeKey key) with
    | none => false
    | some encrypted_data =>
      match gpgDecrypt st encrypted_data with
      | none => false
      | some d => gpgVerify st signature (.plain d)

/-- gpg.py lines 293-328 — `verify_all_signatures`: a per-key verification
map over all stored credentials, without mutating storage. -/
def verify_all_signatures (st : GPGState) : List (String × Bool) :=
  (list_credentials st).map (fun key => (key, verifyOne st key))

end GPGBackend

/-- A GPG store holding a signed credential whose signature does not match
the ciphertext bytes (which is what `set_credential` itself produces, the
signature being over the plaintext): the fail-closed read scenario. -/
def tamperedStore : GPGState :=
  { creds := [("dbcreds_dev",
      .enc ["r"] [("username", "u"), ("password", "p"), ("host", "localhost")])]
    sigs := [("dbcreds_dev",
      .sig "k" [("username", "u"), ("password", "p"), ("host", "localhost")])]
    keyring := ["r", "k"], secrets := ["r", "k"]
    default_recipients := ["r"], sign_key := some "k" }

/-- An empty GPG store with recipient key `r`, signing key `k`, both secret
keys present. -/
def emptyGpgStore : GPGState :=
  { creds := [], sigs := [], keyring := ["r", "k"], secrets := ["r", "k"]
    default_recipients := ["r"], sign_key := some "k" }

/-- A GPG store with one credential that cannot be decrypted here (its only
recipient's secret key is absent). -/
def gpgStoreOneBad : GPGState :=
  { creds := [("a", .enc ["x"] [])], sigs := []
    keyring := ["r", "x"], secrets := ["r"]
    default_recipients := ["r"], sign_key := none }

/-- Like `gpgStoreOneBad` with a second undecryptable credential. -/
def gpgStoreTwoBad : GPGState :=
  { gpgStoreOneBad with
    creds := [("a", .enc ["x"] []), ("b", .enc ["x"] [])] }

/-- The fate of one backend candidate class during
`_initialize_backends` (manager.py lines 137-144): constructed and
available, constructed but unavailable, or failed construction. -/
inductive CandidateOutcome
  | available
  | unavailable
  | constructFails
deriving DecidableEq, Repr

/-- A slot of the resulting chain: the i-th surviving candidate, or the
forced config-file fallback of manager.py lines 146-151. -/
inductive ChainSlot
  | candidate (i : Nat)
  | configFileFallback
deriving DecidableEq, Repr

/-- manager.py lines 137-144 — the availability filter: instantiate each
candidate in order; keep it iff construction succeeded and
`is_available()` returned true (an exception is a logged skip). -/
def availableSlots : Nat → List CandidateOutcome → List ChainSlot
  | _, [] => []
  | i, c :: cs =>
    if c = .available then .candidate i :: availableSlots (i + 1) cs
    else availableSlots (i + 1) cs

/-- manager.py lines 97-151 — `_initialize_backends`: the filtered chain,
with the config-file backend force-appended when the chain came out
empty. -/
def init_backends (cands : List CandidateOutcome) : List ChainSlot :=
  let chain := availableSlots 0 cands
  if chain.isEmpty then [.configFileFallback] else chain

/-- backup config.py — the `metadata.json` contents of `ConfigFileBackend`:
a dict from credential key to its stored entry. -/
structure ConfigStore where
  metadata : List (String × Dict)
deriving Repr

namespace ConfigFileBackend

/-- config.py lines 64-74 — `set_credential`: store
`{"username": username, **metadata}` with any `password` key removed;
the password itself is never stored. -/
def set_credential (s : ConfigStore) (key username password : String)
    (metadata : Dict) : ConfigStore × Bool :=
  let entry := dictDrop (dictUpdate [("username", username)] metadata) "password"
  ({ metadata := aset s.metadata key entry }, true)

/-- config.py lines 50-62 — `get_credential`: pop `username` out of the
stored entry and return it with an EMPTY password (passwords are not
stored in config files). -/
def get_credential (s : ConfigStore) (key : String) :
    Option (String × String × Dict) :=
  match alookup s.metadata key with
  | none => none
  | some data =>
    some ((dictGet data "username").getD "", "", dictDrop data "username")

end ConfigFileBackend

-- ===== MORE DEFINITIONS GO ABOVE; THEOREMS BELOW =====

theorem is_password_expired_none (c : DatabaseCredentials) (now : Int)
    (h : c.password_expires_at = none) :
    c.is_password_expired now = false := by
  simp [DatabaseCredentials.is_password_expired, h]

theorem is_password_expired_some (c : DatabaseCredentials) (now e : Int)
    (h : c.password_expires_at = some e) :
    c.is_password_expired now = decide (now > e) := by
  simp [DatabaseCredentials.is_password_expired, h]

/-- C5: for every credential with `password_expires_at` set,
`is_password_expired()` is true iff `now > password_expires_at` (strict:
equality is not expired), and it is false whenever `password_expires_at` is
`None`. -/
theorem claim_C5_is_password_expired_strict (c : DatabaseCredentials) (now : Int) :
    (c.password_expires_at = none → c.is_password_expired now = false) ∧
    (∀ e : Int, c.password_expires_at = some e →
      ((c.is_password_expired now = true ↔ now > e) ∧
        (now = e → c.is_password_expired now = false))) := by
  constructor
  · intro h
    simp [DatabaseCredentials.is_password_expired, h]
  · intro e h
    constructor
    · simp [DatabaseCredentials.is_password_expired, h]
    · intro he
      simp [DatabaseCredentials.is_password_expired, h, he]

/-- Witness for C5 at a concrete credential: expiry 5, clock at 7 (expired)
and at 5 (not expired on equality). -/
theorem claim_C5_is_password_expired_strict_witness :
    ((sampleCredExp.is_password_expired 7 = true ↔ (7 : Int) > 5) ∧
      ((7 : Int) = 5 → sampleCredExp.is_password_expired 7 = false)) ∧
    ((5 : Int) = 5 → sampleCredExp.is_password_expired 5 = false) ∧
    (sampleCredNoExp.password_expires_at = none →
      sampleCredNoExp.is_password_expired 7 = false) :=
  ⟨(claim_C5_is_password_expired_strict sampleCredExp 7).2 5 rfl,
    ((claim_C5_is_password_expired_strict sampleCredExp 5).2 5 rfl).2,
    (claim_C5_is_password_expired_strict sampleCredNoExp 7).1⟩

/-- C6: `days_until_expiry()` is `None` iff no expiry is set; when an expiry
is set it is never negative (floors at 0) and is monotonically
non-increasing as the clock advances. -/
theorem claim_C6_days_until_expiry_floor_mono (c : DatabaseCredentials) :
    (∀ now : Int, c.days_until_expiry now = none ↔ c.password_expires_at = none) ∧
    (∀ now d : Int, c.days_until_expiry now = some d → 0 ≤ d) ∧
    (∀ now now' d d' : Int, now ≤ now' →
      c.days_until_expiry now = some d → c.days_until_expiry now' = some d' →
      d' ≤ d) := by
  refine ⟨?_, ?_, ?_⟩
  · intro now
    cases h : c.password_expires_at <;>
      simp [DatabaseCredentials.days_until_expiry, h]
  · intro now d hd
    cases h : c.password_expires_at with
    | none => simp [DatabaseCredentials.days_until_expiry, h] at hd
    | some e =>
      simp [DatabaseCredentials.days_until_expiry, h] at hd
      omega
  · intro now now' d d' hle hd hd'
    cases h : c.password_expires_at with
    | none => simp [DatabaseCredentials.days_until_expiry, h] at hd
    | some e =>
      simp [DatabaseCredentials.days_until_expiry, h] at hd hd'
      have hP : (0 : Int) ≤ usPerDay := by decide
      have hPpos : (0 : Int) < usPerDay := by decide
      have hsub : e - now' ≤ e - now := by omega
      have hdiv : (e - now').fdiv usPerDay ≤ (e - now).fdiv usPerDay := by
        rw [Int.fdiv_eq_ediv _ hP, Int.fdiv_eq_ediv _ hP]
        exact Int.ediv_le_ediv hPpos hsub
      omega

/-- Witness for C6 at a concrete credential: expiry 5, clocks 1 ≤ 3. -/
theorem claim_C6_days_until_expiry_floor_mono_witness :
    (sampleCredExp.days_until_expiry 1 = none ↔
      sampleCredExp.password_expires_at = none) ∧
    (sampleCredExp.days_until_expiry 1 = some 0 → (0 : Int) ≤ 0) ∧
    ((1 : Int) ≤ 3 → sampleCredExp.days_until_expiry 1 = some 0 →
      sampleCredExp.days_until_expiry 3 = some 0 → (0 : Int) ≤ 0) :=
  ⟨(claim_C6_days_until_expiry_floor_mono sampleCredExp).1 1,
    (claim_C6_days_until_expiry_floor_mono sampleCredExp).2.1 1 0,
    fun h h1 h2 =>
      (claim_C6_days_until_expiry_floor_mono sampleCredExp).2.2 1 3 0 0 h h1 h2⟩

theorem setToChain_fst (backends : List ChainBackend) (key : String) :
    (setToChain backends key).1 = backends.length := by
  induction backends with
  | nil => rfl
  | cons b rest ih => simp [setToChain, ih]

theorem setToChain_snd (backends : List ChainBackend) (key : String) :
    (setToChain backends key).2 = backends.any (fun b => setAccepted b key) := by
  induction backends with
  | nil => rfl
  | cons b rest ih => simp [setToChain, ih]

theorem length_filter_not_lt_iff_any {α : Type} (p : α → Bool) (l : List α) :
    ((l.filter (fun a => !(p a))).length < l.length) ↔ l.any p = true := by
  induction l with
  | nil => simp
  | cons x xs ih =>
    have hle := List.length_filter_le (fun a => !(p a)) xs
    cases hx : p x <;> simp [hx, ih] <;> omega

theorem length_filter_not_eq_iff_none {α : Type} (p : α → Bool) (l : List α) :
    ((l.filter (fun a => !(p a))).length = l.length) ↔ l.any p = false := by
  have h1 := length_filter_not_lt_iff_any p l
  have hle := List.length_filter_le (fun a => !(p a)) l
  constructor
  · intro h
    cases ha : l.any p with
    | false => rfl
    | true =>
      have hlt := h1.mpr ha
      omega
  · intro ha
    have hnlt : ¬ ((l.filter (fun a => !(p a))).length < l.length) := by
      intro hlt
      rw [h1.mp hlt] at ha
      exact Bool.noConfusion ha
    omega

theorem set_credentials_spec (envs : List Environment)
    (backends : List ChainBackend) (environment host : String) (port : Int)
    (database username password : String) (options : Dict)
    (ped pua : Option Int) (now : Int)
    (henv : (envLookup envs environment.pyLower).isSome = true)
    (hport : 0 < port ∧ port ≤ 65535) :
    set_credentials envs backends environment host port database username
        password options ped pua now =
      if (setToChain backends ("dbcreds:" ++ environment.pyLower)).2 then
        .ok { environment := environment.pyLower, host := host, port := port
              database := database, username := username, password := password
              options := options, ssl_mode := none
              password_updated_at := pua.getD now
              password_expires_at := computeExpiry (pua.getD now) ped }
      else
        .error (.credentialError "Failed to store credentials in any backend") := by
  obtain ⟨e, he⟩ := Option.isSome_iff_exists.mp henv
  simp only [set_credentials, he, mkCreds, if_pos hport]

/-- C3 (amended): for a chain of N available backends of which M fail the
write, `set_credentials` attempts the write on every backend, succeeds
(returning the credential) iff M < N, and iff M = N raises the base
`CredentialError` ("Failed to store credentials in any backend") — not the
`BackendError` subclass, which the code never raises. -/
theorem claim_C3_write_fanout_amended (envs : List Environment)
    (backends : List ChainBackend) (environment host : String) (port : Int)
    (database username password : String) (options : Dict)
    (ped pua : Option Int) (now : Int)
    (henv : (envLookup envs environment.pyLower).isSome = true)
    (hport : 0 < port ∧ port ≤ 65535) :
    ((setToChain backends ("dbcreds:" ++ environment.pyLower)).1 =
      backends.length) ∧
    ((backends.filter
        (fun b => !(setAccepted b ("dbcreds:" ++ environment.pyLower)))).length
          < backends.length ↔
      ∃ creds, set_credentials envs backends environment host port database
        username password options ped pua now = .ok creds) ∧
    ((backends.filter
        (fun b => !(setAccepted b ("dbcreds:" ++ environment.pyLower)))).length
          = backends.length ↔
      set_credentials envs backends environment host port database username
        password options ped pua now =
        .error (.credentialError "Failed to store credentials in any backend")) := by
  have hspec := set_credentials_spec envs backends environment host port
    database username password options ped pua now henv hport
  have hsnd := setToChain_snd backends ("dbcreds:" ++ environment.pyLower)
  have hlt := length_filter_not_lt_iff_any
    (fun b => setAccepted b ("dbcreds:" ++ environment.pyLower)) backends
  have heq := length_filter_not_eq_iff_none
    (fun b => setAccepted b ("dbcreds:" ++ environment.pyLower)) backends
  refine ⟨setToChain_fst _ _, ?_, ?_⟩
  · rw [hlt, ← hsnd]
    cases hst : (setToChain backends ("dbcreds:" ++ environment.pyLower)).2
    · rw [hspec, if_neg (by simp [hst])]
      simp
    · rw [hspec, if_pos (by simp [hst])]
      simp
  · rw [heq, ← Bool.not_eq_true, ← hsnd]
    cases hst : (setToChain backends ("dbcreds:" ++ environment.pyLower)).2
    · rw [hspec, if_neg (by simp [hst])]
      simp
    · rw [hspec, if_pos (by simp [hst])]
      simp

/-- Witness for the amended C3, instantiated both ways: one accepting
backend of two (M = 1 < N = 2) and a single rejecting backend
(M = N = 1). -/
theorem claim_C3_write_fanout_amended_witness :
    (((setToChain [rejectBackend, acceptBackend] ("dbcreds:" ++ "dev".pyLower)).1 =
        [rejectBackend, acceptBackend].length) ∧
      (([rejectBackend, acceptBackend].filter
          (fun b => !(setAccepted b ("dbcreds:" ++ "dev".pyLower)))).length
            < [rejectBackend, acceptBackend].length ↔
        ∃ creds, set_credentials [devEnv] [rejectBackend, acceptBackend] "dev"
          "localhost" 5432 "mydb" "u" "p" [] (some 90) none 0 = .ok creds) ∧
      (([rejectBackend, acceptBackend].filter
          (fun b => !(setAccepted b ("dbcreds:" ++ "dev".pyLower)))).length
            = [rejectBackend, acceptBackend].length ↔
        set_credentials [devEnv] [rejectBackend, acceptBackend] "dev"
          "localhost" 5432 "mydb" "u" "p" [] (some 90) none 0 =
          .error (.credentialError "Failed to store credentials in any backend"))) ∧
    (((setToChain [rejectBackend] ("dbcreds:" ++ "dev".pyLower)).1 =
        [rejectBackend].length) ∧
      (([rejectBackend].filter
          (fun b => !(setAccepted b ("dbcreds:" ++ "dev".pyLower)))).length
            < [rejectBackend].length ↔
        ∃ creds, set_credentials [devEnv] [rejectBackend] "dev"
          "localhost" 5432 "mydb" "u" "p" [] (some 90) none 0 = .ok creds) ∧
      (([rejectBackend].filter
          (fun b => !(setAccepted b ("dbcreds:" ++ "dev".pyLower)))).length
            = [rejectBackend].length ↔
        set_credentials [devEnv] [rejectBackend] "dev"
          "localhost" 5432 "mydb" "u" "p" [] (some 90) none 0 =
          .error (.credentialError "Failed to store credentials in any backend"))) :=
  ⟨claim_C3_write_fanout_amended [devEnv] [rejectBackend, acceptBackend] "dev"
      "localhost" 5432 "mydb" "u" "p" [] (some 90) none 0 rfl
      ⟨by decide, by decide⟩,
    claim_C3_write_fanout_amended [devEnv] [rejectBackend] "dev"
      "localhost" 5432 "mydb" "u" "p" [] (some 90) none 0 rfl
      ⟨by decide, by decide⟩⟩

/-- C3 counterexample: with a single backend that fails the write
(M = N = 1), `set_credentials` raises the base `CredentialError`, not
`BackendError`, so the claim's "raises BackendError iff M = N" is false. -/
theorem claim_C3_counterexample :
    set_credentials [devEnv] [rejectBackend] "dev" "localhost" 5432 "mydb"
        "u" "p" [] (some 90) none 0 =
      .error (.credentialError "Failed to store credentials in any backend") ∧
    raisedBackendError (set_credentials [devEnv] [rejectBackend] "dev"
      "localhost" 5432 "mydb" "u" "p" [] (some 90) none 0) = false := by
  exact ⟨rfl, rfl⟩

/-- C2: the code violates the claim. With a single backend holding a
credential whose lifecycle state is Expired (expiry 5, clock 10),
`get_credentials` with `check_expiry=true` does NOT raise
`PasswordExpiredError`: that exception, raised at manager.py:388 inside the
backend loop's `try`, is caught by the `except Exception` at
manager.py:396, the loop continues, and the call ends in
`CredentialNotFoundError`. With `check_expiry=false` the credential is
returned, as the claim says. -/
theorem claim_C2_expired_error_swallowed :
    get_credentials [devEnv] [expiredBackend] "dev" true 10 =
      .error (.credentialNotFoundError
        "No credentials found for environment dev") ∧
    raisedPasswordExpired
      (get_credentials [devEnv] [expiredBackend] "dev" true 10) = false ∧
    get_credentials [devEnv] [expiredBackend] "dev" false 10 =
      .ok { environment := "dev", host := "localhost", port := 5432
            database := "mydb", username := "u", password := "p"
            options := [], ssl_mode := none, password_updated_at := 0
            password_expires_at := some 5 } :=
  ⟨rfl, rfl, rfl⟩

/-- C7: `set_credentials` called at the declared default of
`password_expires_days` (90, manager.py:254) stores
`password_expires_at = password_updated_at + 90 days`, while an explicit
`None` or `0` (both falsy at manager.py:299) stores no expiry. -/
theorem claim_C7_expires_days_default (envs : List Environment)
    (backends : List ChainBackend) (environment host : String) (port : Int)
    (database username password : String) (options : Dict)
    (pua : Option Int) (now : Int)
    (henv : (envLookup envs environment.pyLower).isSome = true)
    (hport : 0 < port ∧ port ≤ 65535)
    (hacc : (setToChain backends ("dbcreds:" ++ environment.pyLower)).2 = true) :
    (∃ creds, set_credentials envs backends environment host port database
        username password options SET_CREDENTIALS_EXPIRES_DAYS_DEFAULT pua now
          = .ok creds ∧
      creds.password_updated_at = pua.getD now ∧
      creds.password_expires_at =
        some (creds.password_updated_at + 90 * usPerDay)) ∧
    (∃ creds, set_credentials envs backends environment host port database
        username password options none pua now = .ok creds ∧
      creds.password_expires_at = none) ∧
    (∃ creds, set_credentials envs backends environment host port database
        username password options (some 0) pua now = .ok creds ∧
      creds.password_expires_at = none) := by
  refine
    ⟨⟨{ environment := environment.pyLower, host := host, port := port
        database := database, username := username, password := password
        options := options, ssl_mode := none
        password_updated_at := pua.getD now
        password_expires_at := computeExpiry (pua.getD now)
          SET_CREDENTIALS_EXPIRES_DAYS_DEFAULT }, ?_, rfl, ?_⟩,
      ⟨{ environment := environment.pyLower, host := host, port := port
         database := database, username := username, password := password
         options := options, ssl_mode := none
         password_updated_at := pua.getD now
         password_expires_at := computeExpiry (pua.getD now) none }, ?_, ?_⟩,
      ⟨{ environment := environment.pyLower, host := host, port := port
         database := database, username := username, password := password
         options := options, ssl_mode := none
         password_updated_at := pua.getD now
         password_expires_at := computeExpiry (pua.getD now) (some 0) }, ?_, ?_⟩⟩
  · rw [set_credentials_spec envs backends environment host port database
      username password options SET_CREDENTIALS_EXPIRES_DAYS_DEFAULT pua now
      henv hport, if_pos hacc]
  · simp [SET_CREDENTIALS_EXPIRES_DAYS_DEFAULT, computeExpiry]
  · rw [set_credentials_spec envs backends environment host port database
      username password options none pua now henv hport, if_pos hacc]
  · simp [computeExpiry]
  · rw [set_credentials_spec envs backends environment host port database
      username password options (some 0) pua now henv hport, if_pos hacc]
  · simp [computeExpiry]

/-- Witness for C7: registered `dev` environment, one accepting backend,
write clock 0. -/
theorem claim_C7_expires_days_default_witness :
    (∃ creds, set_credentials [devEnv] [acceptBackend] "dev" "localhost" 5432
        "mydb" "u" "p" [] SET_CREDENTIALS_EXPIRES_DAYS_DEFAULT none 0
          = .ok creds ∧
      creds.password_updated_at = (none : Option Int).getD 0 ∧
      creds.password_expires_at =
        some (creds.password_updated_at + 90 * usPerDay)) ∧
    (∃ creds, set_credentials [devEnv] [acceptBackend] "dev" "localhost" 5432
        "mydb" "u" "p" [] none none 0 = .ok creds ∧
      creds.password_expires_at = none) ∧
    (∃ creds, set_credentials [devEnv] [acceptBackend] "dev" "localhost" 5432
        "mydb" "u" "p" [] (some 0) none 0 = .ok creds ∧
      creds.password_expires_at = none) :=
  claim_C7_expires_days_default [devEnv] [acceptBackend] "dev" "localhost"
    5432 "mydb" "u" "p" [] none 0 rfl ⟨by decide, by decide⟩ rfl

/-- C8: environment names are case-insensitive identifiers:
`add_environment "DEV"` stores the name lowercased, a second
`add_environment` differing only in case raises an "already exists" error,
and a subsequent `get_credentials "dev"` resolves the stored environment
and returns the credential its backend holds. -/
theorem claim_C8_env_names_case_insensitive (envs : List Environment)
    (now now2 clock : Int) (u p : String) (meta : CredMeta)
    (h : envLookup envs "dev" = none)
    (hport : 0 < meta.port ∧ meta.port ≤ 65535) :
    add_environment envs "DEV" .postgresql none false now =
      .ok (envs ++ [addedDevEnv now], addedDevEnv now) ∧
    (addedDevEnv now).name = "DEV".pyLower ∧
    add_environment (envs ++ [addedDevEnv now]) "Dev" .postgresql none false
        now2 =
      .error (.credentialError "Environment Dev already exists") ∧
    get_credentials (envs ++ [addedDevEnv now]) [foundBackend u p meta] "dev"
        false clock =
      .ok { environment := "dev", host := meta.host, port := meta.port
            database := meta.database, username := u, password := p
            options := meta.options, ssl_mode := meta.ssl_mode
            password_updated_at := meta.password_updated_at
            password_expires_at := meta.password_expires_at } := by
  have hlook : envLookup (envs ++ [addedDevEnv now]) "dev" =
      some (addedDevEnv now) := by
    unfold envLookup at h ⊢
    rw [List.find?_append, h]
    rfl
  refine ⟨?_, rfl, ?_, ?_⟩
  · unfold add_environment
    rw [show "DEV".pyLower = "dev" from rfl, h]
    rfl
  · unfold add_environment
    rw [show "Dev".pyLower = "dev" from rfl, hlook]
    rfl
  · simp only [get_credentials]
    rw [show "dev".pyLower = "dev" from rfl, hlook]
    simp only [getFromChain, foundBackend, mkCreds, if_pos hport]
    rfl

/-- Witness for C8: empty registry, credential metadata on port 5432. -/
theorem claim_C8_env_names_case_insensitive_witness :
    add_environment [] "DEV" .postgresql none false 3 =
      .ok ([] ++ [addedDevEnv 3], addedDevEnv 3) ∧
    (addedDevEnv 3).name = "DEV".pyLower ∧
    add_environment ([] ++ [addedDevEnv 3]) "Dev" .postgresql none false 4 =
      .error (.credentialError "Environment Dev already exists") ∧
    get_credentials ([] ++ [addedDevEnv 3]) [foundBackend "u" "p" expiredMeta]
        "dev" false 5 =
      .ok { environment := "dev", host := expiredMeta.host
            port := expiredMeta.port, database := expiredMeta.database
            username := "u", password := "p", options := expiredMeta.options
            ssl_mode := expiredMeta.ssl_mode
            password_updated_at := expiredMeta.password_updated_at
            password_expires_at := expiredMeta.password_expires_at } :=
  claim_C8_env_names_case_insensitive [] 3 4 5 "u" "p" expiredMeta rfl
    ⟨by decide, by decide⟩

/-- C1: the code violates the claim. On a stored GPG credential whose
signature file exists, with a signing key configured and detached-signature
verification failing, the `try` body of `get_credential` does raise
`SecurityError` (gpg.py:134) — but the function's own
`except (json.JSONDecodeError, SecurityError)` at gpg.py:149 catches it
and `get_credential` returns `None` to its caller. No credential data is
returned, but no `SecurityError` escapes either: the manager treats the
read as a miss and falls through to the next backend. -/
theorem claim_C1_security_error_caught :
    GPGBackend.get_credential_try tamperedStore "dbcreds:dev" =
      .securityErr ("Signature verification failed for " ++ "dbcreds:dev") ∧
    GPGBackend.get_credential tamperedStore "dbcreds:dev" = none :=
  ⟨rfl, rfl⟩

theorem rotate_fold_counts (new_recipients : List String) (ks : List String) :
    ∀ st : GPGState,
      (GPGBackend.rotate_fold new_recipients ks st).2.1 +
        (GPGBackend.rotate_fold new_recipients ks st).2.2 = ks.length := by
  induction ks with
  | nil => intro st; rfl
  | cons k rest ih =>
    intro st
    simp only [GPGBackend.rotate_fold]
    cases hget : GPGBackend.get_credential st k with
    | none =>
      have := ih st
      simp [hget]
      omega
    | some r =>
      obtain ⟨u, p, md⟩ := r
      have := ih (GPGBackend.set_credential st k u p md (some new_recipients)).1
      cases hw : (GPGBackend.set_credential st k u p md (some new_recipients)).2 with
      | false =>
        simp [hget, hw]
        omega
      | true =>
        simp [hget, hw]
        omega

/-- C10 (amended): `rotate_keys` processes every stored credential even
when some fail — the success and failure counters sum to the number of
stored credentials, so no failure aborts the batch — and its returned
value reports success iff the failure count is zero. The per-outcome
counts themselves are written to the log (gpg.py:286), not returned: the
return value is only the boolean. -/
theorem claim_C10_rotate_partial_failure_amended (st : GPGState)
    (old_recipients new_recipients : List String) :
    ((GPGBackend.rotate_keys_counts st old_recipients new_recipients).1 +
      (GPGBackend.rotate_keys_counts st old_recipients new_recipients).2 =
        (GPGBackend.list_credentials st).length) ∧
    ((GPGBackend.rotate_keys st old_recipients new_recipients).2 = true ↔
      (GPGBackend.rotate_keys_counts st old_recipients new_recipients).2 = 0) := by
  constructor
  · exact rotate_fold_counts new_recipients (GPGBackend.list_credentials st) st
  · simp [GPGBackend.rotate_keys, GPGBackend.rotate_keys_counts]

/-- C10 counterexample: two stores whose rotations have different
per-outcome counts (one failure vs two) but identical returned results —
the counts are not "returned alongside the result"; only the boolean is. -/
theorem claim_C10_counterexample :
    (GPGBackend.rotate_keys gpgStoreOneBad ["old"] ["r"]).2 =
      (GPGBackend.rotate_keys gpgStoreTwoBad ["old"] ["r"]).2 ∧
    GPGBackend.rotate_keys_counts gpgStoreOneBad ["old"] ["r"] = (0, 1) ∧
    GPGBackend.rotate_keys_counts gpgStoreTwoBad ["old"] ["r"] = (0, 2) :=
  ⟨rfl, rfl, rfl⟩

theorem alookup_map_update {α : Type} (l : List (String × α)) (k : String)
    (v : α) :
    l.any (fun p => p.1 = k) = true →
    alookup (l.map (fun p => if p.1 = k then (k, v) else p)) k = some v := by
  induction l with
  | nil => intro h; simp at h
  | cons x xs ih =>
    intro h
    by_cases hx : x.1 = k
    · simp [alookup, hx]
    · have h2 : xs.any (fun p => p.1 = k) = true := by
        simp [hx] at h
        simpa using h
      simp [alookup, hx]
      exact ih h2

theorem alookup_append_right {α : Type} (l : List (String × α)) (k : String)
    (v : α) :
    l.any (fun p => p.1 = k) = false →
    alookup (l ++ [(k, v)]) k = some v := by
  induction l with
  | nil => intro h; simp [alookup]
  | cons x xs ih =>
    intro h
    simp only [List.any_cons, Bool.or_eq_false_iff] at h
    have hx : ¬ (x.1 = k) := by
      intro hh
      simp [hh] at h
    simp [alookup, hx]
    exact ih h.2

theorem alookup_aset {α : Type} (l : List (String × α)) (k : String) (v : α) :
    alookup (aset l k v) k = some v := by
  unfold aset
  by_cases h : l.any (fun p => p.1 = k) = true
  · rw [if_pos h]
    exact alookup_map_update l k v h
  · rw [if_neg h]
    exact alookup_append_right l k v (Bool.eq_false_iff.mpr h)

theorem safeKeyChar_idem (c : Char) :
    safeKeyChar (safeKeyChar c) = safeKeyChar c := by
  unfold safeKeyChar
  by_cases h : (c.isAlphanum || c = '-' || c = '_') = true
  · rw [if_pos h, if_pos h]
  · rw [if_neg h]
    rfl

theorem mapSafe_idem (l : List Char) :
    (l.map safeKeyChar).map safeKeyChar = l.map safeKeyChar := by
  induction l with
  | nil => rfl
  | cons c cs ih => simp [safeKeyChar_idem, ih]

theorem safeKey_idem (key : String) : safeKey (safeKey key) = safeKey key :=
  congrArg String.mk (mapSafe_idem key.data)

theorem mem_insortStr (x y : String) (l : List String) :
    y ∈ GPGBackend.insortStr x l ↔ y = x ∨ y ∈ l := by
  induction l with
  | nil => simp [GPGBackend.insortStr]
  | cons z zs ih =>
    simp only [GPGBackend.insortStr]
    by_cases h : GPGBackend.strLe x z = true
    · rw [if_pos h]
      simp
    · rw [if_neg h]
      simp [ih]
      tauto

theorem mem_sortStr (y : String) (l : List String) :
    y ∈ GPGBackend.sortStr l ↔ y ∈ l := by
  induction l with
  | nil => simp [GPGBackend.sortStr]
  | cons x xs ih =>
    show y ∈ GPGBackend.insortStr x (GPGBackend.sortStr xs) ↔ _
    rw [mem_insortStr]
    simp [ih]

theorem alookup_map_self (l : List String) (k : String) (g : String → Bool) :
    k ∈ l → alookup (l.map (fun x => (x, g x))) k = some (g k) := by
  induction l with
  | nil => intro h; cases h
  | cons x xs ih =>
    intro h
    by_cases hx : x = k
    · subst hx
      simp [alookup]
    · have h2 : k ∈ xs := by
        cases h with
        | head => exact absurd rfl hx
        | tail _ hh => exact hh
      simp [alookup, hx]
      exact ih h2

theorem mem_keys_aset {α : Type} (l : List (String × α)) (k : String) (v : α) :
    k ∈ (aset l k v).map (fun p => p.1) := by
  unfold aset
  by_cases h : l.any (fun p => p.1 = k) = true
  · rw [if_pos h]
    induction l with
    | nil => simp at h
    | cons x xs ih =>
      by_cases hx : x.1 = k
      · simp [hx]
      · have h2 : xs.any (fun p => p.1 = k) = true := by
          simp [hx] at h
          simpa using h
        simp [hx]
        right
        simpa using ih h2
  · rw [if_neg h]
    simp

theorem gpg_set_credential_signed (st : GPGState)
    (key username password : String) (metadata : Dict) (k : String)
    (hsign : st.sign_key = some k)
    (hksec : st.secrets.contains k = true)
    (hne : st.default_recipients.isEmpty = false)
    (hrecok : gpgEncryptOk st st.default_recipients = true) :
    GPGBackend.set_credential st key username password metadata none =
      ({ st with
          creds := aset st.creds (safeKey key)
            (.enc st.default_recipients
              (dictUpdate [("username", username), ("password", password)]
                metadata))
          sigs := aset st.sigs (safeKey key)
            (.sig k
              (dictUpdate [("username", username), ("password", password)]
                metadata)) },
        true) := by
  simp only [GPGBackend.set_credential]
  rw [if_neg (by simp [hne])]
  rw [if_neg (by simp [hrecok])]
  simp only [hsign, gpgSign]
  rw [if_pos hksec]

/-- C4: with signing enabled, `set_credential` signs the JSON plaintext
(gpg.py:194) while `get_credential` verifies the signature against the
ciphertext bytes (gpg.py:131): for every credential the backend itself
writes, the read-path signature verification fails (the signed message and
the verified message differ), the read returns no data, and yet
`verify_all_signatures` — which verifies against the decrypted plaintext
(gpg.py:315-321) — reports the same credential as valid. -/
theorem claim_C4_sign_plaintext_verify_ciphertext (st : GPGState)
    (key username password : String) (metadata : Dict) (k : String)
    (hsign : st.sign_key = some k)
    (hksec : st.secrets.contains k = true)
    (hkpub : st.keyring.contains k = true)
    (hne : st.default_recipients.isEmpty = false)
    (hrecok : gpgEncryptOk st st.default_recipients = true)
    (hdec : st.default_recipients.any (fun r => st.secrets.contains r) = true) :
    ((GPGBackend.set_credential st key username password metadata none).2 =
      true) ∧
    (∃ sg encd,
      alookup (GPGBackend.set_credential st key username password metadata
          none).1.sigs (safeKey key) = some sg ∧
      alookup (GPGBackend.set_credential st key username password metadata
          none).1.creds (safeKey key) = some encd ∧
      gpgVerify (GPGBackend.set_credential st key username password metadata
          none).1 sg encd = false) ∧
    GPGBackend.get_credential (GPGBackend.set_credential st key username
      password metadata none).1 key = none ∧
    alookup (GPGBackend.verify_all_signatures
        (GPGBackend.set_credential st key username password metadata none).1)
      (safeKey key) = some true := by
  have hw := gpg_set_credential_signed st key username password metadata k
    hsign hksec hne hrecok
  rw [hw]
  refine ⟨rfl, ?_, ?_, ?_⟩
  · refine ⟨_, _, alookup_aset _ _ _, alookup_aset _ _ _, ?_⟩
    simp [gpgVerify]
  · simp only [GPGBackend.get_credential, GPGBackend.get_credential_try,
      alookup_aset]
    simp [gpgVerify, hsign]
  · have hmem : safeKey key ∈ GPGBackend.list_credentials
        ({ st with
            creds := aset st.creds (safeKey key)
              (.enc st.default_recipients
                (dictUpdate [("username", username), ("password", password)]
                  metadata))
            sigs := aset st.sigs (safeKey key)
              (.sig k
                (dictUpdate [("username", username), ("password", password)]
                  metadata)) } : GPGState) := by
      simp only [GPGBackend.list_credentials, mem_sortStr]
      exact mem_keys_aset _ _ _
    rw [GPGBackend.verify_all_signatures, alookup_map_self _ _ _ hmem]
    simp only [GPGBackend.verifyOne, safeKey_idem, alookup_aset]
    simp only [gpgDecrypt]
    rw [if_pos hdec]
    simp [gpgVerify]
    simpa using hkpub

/-- Witness for C4: the empty store with recipient `r` and signing key `k`,
writing the `dev` credential. -/
theorem claim_C4_sign_plaintext_verify_ciphertext_witness :
    ((GPGBackend.set_credential emptyGpgStore "dbcreds:dev" "u" "p"
        [("host", "localhost")] none).2 = true) ∧
    (∃ sg encd,
      alookup (GPGBackend.set_credential emptyGpgStore "dbcreds:dev" "u" "p"
          [("host", "localhost")] none).1.sigs (safeKey "dbcreds:dev") =
        some sg ∧
      alookup (GPGBackend.set_credential emptyGpgStore "dbcreds:dev" "u" "p"
          [("host", "localhost")] none).1.creds (safeKey "dbcreds:dev") =
        some encd ∧
      gpgVerify (GPGBackend.set_credential emptyGpgStore "dbcreds:dev" "u" "p"
          [("host", "localhost")] none).1 sg encd = false) ∧
    GPGBackend.get_credential (GPGBackend.set_credential emptyGpgStore
      "dbcreds:dev" "u" "p" [("host", "localhost")] none).1 "dbcreds:dev" =
      none ∧
    alookup (GPGBackend.verify_all_signatures
        (GPGBackend.set_credential emptyGpgStore "dbcreds:dev" "u" "p"
          [("host", "localhost")] none).1)
      (safeKey "dbcreds:dev") = some true :=
  claim_C4_sign_plaintext_verify_ciphertext emptyGpgStore "dbcreds:dev" "u"
    "p" [("host", "localhost")] "k" rfl rfl rfl rfl rfl rfl

theorem availableSlots_nil (cands : List CandidateOutcome)
    (hall : ∀ c ∈ cands, c ≠ .available) :
    ∀ i, availableSlots i cands = [] := by
  induction cands with
  | nil => intro i; rfl
  | cons c cs ih =>
    intro i
    have hc : c ≠ .available := hall c (List.mem_cons_self _ _)
    simp only [availableSlots]
    rw [if_neg hc]
    exact ih (fun x hx => hall x (List.mem_cons_of_mem _ hx)) (i + 1)

theorem dictSet_fresh (acc : Dict) (k v : String)
    (h : acc.all (fun p => p.1 ≠ k) = true) :
    dictSet acc k v = acc ++ [(k, v)] := by
  unfold dictSet
  rw [if_neg]
  intro hany
  rw [List.any_eq_true] at hany
  obtain ⟨p, hp, hpk⟩ := hany
  have h2 := List.all_eq_true.mp h p hp
  simp at h2 hpk
  exact h2 hpk

theorem dictUpdate_fresh (kvs : Dict) :
    ∀ acc : Dict,
    (∀ kv ∈ kvs, acc.all (fun p => p.1 ≠ kv.1) = true) →
    (kvs.map (fun p => p.1)).Nodup →
    dictUpdate acc kvs = acc ++ kvs := by
  induction kvs with
  | nil => intro acc _ _; simp [dictUpdate]
  | cons kv rest ih =>
    intro acc hfresh hnd
    have hstep : dictSet acc kv.1 kv.2 = acc ++ [kv] := by
      rw [dictSet_fresh acc kv.1 kv.2 (hfresh kv (List.mem_cons_self _ _))]
    have hndr : (rest.map (fun p => p.1)).Nodup := by
      simp only [List.map_cons, List.nodup_cons] at hnd
      exact hnd.2
    have hhead : kv.1 ∉ rest.map (fun p => p.1) := by
      simp only [List.map_cons, List.nodup_cons] at hnd
      exact hnd.1
    have hfresh2 : ∀ kv2 ∈ rest, (acc ++ [kv]).all (fun p => p.1 ≠ kv2.1) = true := by
      intro kv2 h2
      rw [List.all_append]
      have ha := hfresh kv2 (List.mem_cons_of_mem _ h2)
      have hb : kv.1 ≠ kv2.1 := by
        intro hh
        exact hhead (hh ▸ List.mem_map_of_mem (fun p => p.1) h2)
      simp only [List.all_append, Bool.and_eq_true]
      refine ⟨ha, ?_⟩
      simp [hb]
    show dictUpdate (dictSet acc kv.1 kv.2) rest = acc ++ kv :: rest
    rw [hstep, ih (acc ++ [kv]) hfresh2 hndr]
    simp

theorem dictDrop_of_absent (d : Dict) (k : String)
    (h : d.all (fun p => p.1 ≠ k) = true) : dictDrop d k = d := by
  unfold dictDrop
  apply List.filter_eq_self.mpr
  intro a ha
  exact List.all_eq_true.mp h a ha

/-- C9: when every backend candidate fails construction or reports
unavailable, `_initialize_backends` leaves a chain of exactly one backend,
the force-appended config-file backend; a write against it succeeds while
never storing the password, and the read back yields the stored username
and metadata with an empty password. -/
theorem claim_C9_config_fallback (cands : List CandidateOutcome)
    (s : ConfigStore) (key username password : String) (metadata : Dict)
    (hall : ∀ c ∈ cands, c ≠ .available)
    (hnou : metadata.all (fun p => p.1 ≠ "username") = true)
    (hnd : (metadata.map (fun p => p.1)).Nodup) :
    init_backends cands = [.configFileFallback] ∧
    (ConfigFileBackend.set_credential s key username password metadata).2 =
      true ∧
    ConfigFileBackend.get_credential
        (ConfigFileBackend.set_credential s key username password metadata).1
        key =
      some (username, "", dictDrop metadata "password") := by
  refine ⟨?_, rfl, ?_⟩
  · unfold init_backends
    rw [availableSlots_nil cands hall 0]
    rfl
  · have hf : ∀ kv ∈ metadata,
        ([("username", username)] : Dict).all (fun p => p.1 ≠ kv.1) = true := by
      intro kv hkv
      have h2 := List.all_eq_true.mp hnou kv hkv
      simp at h2 ⊢
      exact fun hh => h2 hh.symm
    have hupd : dictUpdate [("username", username)] metadata =
        ("username", username) :: metadata := by
      rw [dictUpdate_fresh metadata [("username", username)] hf hnd]
      rfl
    have hdrop : dictDrop (("username", username) :: metadata) "password" =
        ("username", username) :: dictDrop metadata "password" := by
      simp [dictDrop]
    have hall2 : (dictDrop metadata "password").all
        (fun p => p.1 ≠ "username") = true := by
      rw [List.all_eq_true] at hnou ⊢
      intro a ha
      simp only [dictDrop] at ha
      exact hnou a (List.mem_of_mem_filter ha)
    simp only [ConfigFileBackend.set_credential,
      ConfigFileBackend.get_credential, hupd, hdrop, alookup_aset]
    have hdrop2 : dictDrop (("username", username) ::
        dictDrop metadata "password") "username" =
        dictDrop metadata "password" := by
      rw [show dictDrop (("username", username) ::
          dictDrop metadata "password") "username" =
          dictDrop (dictDrop metadata "password") "username" by simp [dictDrop]]
      exact dictDrop_of_absent _ _ hall2
    rw [hdrop2]
    simp [dictGet]

/-- Witness for C9: two dead candidates, empty store, a host/port metadata
entry. -/
theorem claim_C9_config_fallback_witness :
    init_backends [.unavailable, .constructFails] = [.configFileFallback] ∧
    (ConfigFileBackend.set_credential ⟨[]⟩ "dbcreds:dev" "u" "secret"
      [("host", "localhost"), ("port", "5432")]).2 = true ∧
    ConfigFileBackend.get_credential
        (ConfigFileBackend.set_credential ⟨[]⟩ "dbcreds:dev" "u" "secret"
          [("host", "localhost"), ("port", "5432")]).1 "dbcreds:dev" =
      some ("u", "",
        dictDrop [("host", "localhost"), ("port", "5432")] "password") :=
  claim_C9_config_fallback [.unavailable, .constructFails] ⟨[]⟩ "dbcreds:dev"
    "u" "secret" [("host", "localhost"), ("port", "5432")]
    (by decide) (by decide) (by decide)
